import Mathlib

/-!
# Verification of the bleak CoreBluetooth client and server base

Shallow embedding of `src/bleak/backends/corebluetooth/client.py`
(`BleakClientCoreBluetooth`) and `src/bleak/backends/server.py`
(`BaseBleakServer`), together with proofs settling the claims about them.

Conventions of the embedding:
* Python strings become `String`, byte sequences become `List Nat`
  (each entry `< 256`), Python `int` becomes `Nat`.
* `raise BleakError(msg)` becomes `Except.error ⟨msg⟩`.
* Each stateful operation returns, besides its result, the list of calls it
  issued to the native adapter / delegate (and, for discovery, the mutation
  events on the service collection), so that "issues no adapter call" and
  ordering claims are statable.
* The native CoreBluetooth objects (`CBService`, `CBCharacteristic`,
  `CBDescriptor`) are modelled as records carrying exactly the data the
  client reads from them (`UUID().UUIDString()`, child lists, handle).
-/

/-! ## UUID conversion and normalization
Embeds `convert_uuid_to_int`, `is_uuid_16bit_compatible` and
`get_appropriate_uuid` (client.py lines 252-273).  `CBUUID` parsing of a
hyphenated hex string into 16 octets followed by `int.from_bytes(_, 'big')`
amounts to reading the hex digits, hyphens skipped, as one big-endian
number. -/

/-- Python `str.upper()` on the ASCII strings handled here: map each
character to its upper-case form.  (Stated character-wise so that concrete
instances reduce in the kernel.) -/
def pyUpper (s : String) : String :=
  String.mk (s.data.map (fun c =>
    if 'a' ≤ c ∧ c ≤ 'z' then Char.ofNat (c.toNat - 32) else c))

/-- Value of one hex digit character; non-hex characters (which a real
`CBUUID` would reject) are given value 0, a case outside every claim. -/
def hexVal (c : Char) : Nat :=
  if '0' ≤ c ∧ c ≤ '9' then c.toNat - '0'.toNat
  else if 'a' ≤ c ∧ c ≤ 'f' then c.toNat - 'a'.toNat + 10
  else if 'A' ≤ c ∧ c ≤ 'F' then c.toNat - 'A'.toNat + 10
  else 0

/-- `convert_uuid_to_int` (client.py lines 268-273): the 16-octet UUID read
as a big-endian unsigned integer. -/
def convert_uuid_to_int (u : String) : Nat :=
  (u.data.filter (fun c => c ≠ '-')).foldl (fun acc c => acc * 16 + hexVal c) 0

/-- `is_uuid_16bit_compatible` (client.py lines 261-266). -/
def is_uuid_16bit_compatible (u : String) : Bool :=
  let test_uuid := "0000FFFF-0000-1000-8000-00805F9B34FB"
  let test_int := convert_uuid_to_int test_uuid
  let uuid_int := convert_uuid_to_int u
  let result_int := Nat.land uuid_int test_int
  uuid_int == result_int

/-- Python slice `s[a:b]` on a string. -/
def strSlice (s : String) (a b : Nat) : String :=
  String.mk ((s.data.drop a).take (b - a))

/-- `get_appropriate_uuid` (client.py lines 252-259). -/
def get_appropriate_uuid (u : String) : String :=
  if u.length == 4 then pyUpper u
  else if is_uuid_16bit_compatible u then pyUpper (strSlice u 4 8)
  else pyUpper u

/-- The §4.1 normalizer exactly as claim C1 states it: three branches, the
mask test `uuid_int & base_int == uuid_int` against the integer of the Base
UUID, short form taken from string characters 4..7 uppercased. -/
def normalize_claim (u : String) : String :=
  if u.length == 4 then pyUpper u
  else
    let uuid_int := convert_uuid_to_int u
    let base_int := convert_uuid_to_int "0000FFFF-0000-1000-8000-00805F9B34FB"
    if Nat.land uuid_int base_int == uuid_int then pyUpper (strSlice u 4 8)
    else pyUpper u

/-- C1: `get_appropriate_uuid` implements exactly the three-branch algorithm
of §4.1: length-4 inputs are uppercased unchanged; otherwise, with
`uuid_int` the big-endian 128-bit integer of the input and `base_int` that
of `0000FFFF-0000-1000-8000-00805F9B34FB`, if
`uuid_int & base_int == uuid_int` the result is string characters 4..7
uppercased, and otherwise the full input uppercased. -/
theorem get_appropriate_uuid_eq_claim (u : String) :
    get_appropriate_uuid u = normalize_claim u := by
  unfold get_appropriate_uuid normalize_claim is_uuid_16bit_compatible
  simp only [beq_iff_eq]
  by_cases h : u.length = 4
  · simp [h]
  · simp only [h, if_false]
    by_cases hm :
        Nat.land (convert_uuid_to_int u)
          (convert_uuid_to_int "0000FFFF-0000-1000-8000-00805F9B34FB") =
        convert_uuid_to_int u
    · simp [hm]
    · simp only [if_neg hm]
      rw [if_neg]
      intro hc
      exact hm hc.symm

/-- C1 witness: the theorem applied at the §8 scenario inputs, with both
branches of the mask test exercised. -/
theorem get_appropriate_uuid_eq_claim_witness :
    get_appropriate_uuid "00002A37-0000-1000-8000-00805F9B34FB" =
      normalize_claim "00002A37-0000-1000-8000-00805F9B34FB" ∧
    normalize_claim "00002A37-0000-1000-8000-00805F9B34FB" = "2A37" ∧
    get_appropriate_uuid "A1B2C3D4-1234-5678-9ABC-DEF012345678" =
      normalize_claim "A1B2C3D4-1234-5678-9ABC-DEF012345678" ∧
    normalize_claim "A1B2C3D4-1234-5678-9ABC-DEF012345678" =
      "A1B2C3D4-1234-5678-9ABC-DEF012345678" ∧
    get_appropriate_uuid "2a37" = normalize_claim "2a37" ∧
    normalize_claim "2a37" = "2A37" :=
  ⟨get_appropriate_uuid_eq_claim "00002A37-0000-1000-8000-00805F9B34FB",
   by decide,
   get_appropriate_uuid_eq_claim "A1B2C3D4-1234-5678-9ABC-DEF012345678",
   by decide,
   get_appropriate_uuid_eq_claim "2a37",
   by decide⟩

/-! ## Native objects, devices and the service collection

`CBService`/`CBCharacteristic`/`CBDescriptor` model the CoreBluetooth
objects handed over by the peripheral delegate: the client reads their
`UUID().UUIDString()` and, through the delegate, their child lists; the
descriptor is addressed by its numeric handle.  The delegate calls
`discoverCharacteristics_(service)` and `discoverDescriptors_(char)` return
exactly those child lists. -/

structure CBDescriptor where
  handle : Nat
deriving DecidableEq, Repr

structure CBCharacteristic where
  uuidString : String
  descriptors : List CBDescriptor
deriving DecidableEq, Repr

structure CBService where
  uuidString : String
  characteristics : List CBCharacteristic
deriving DecidableEq, Repr

/-- A scanned native peripheral: `identifier().UUIDString()` (the address)
and `name()` (`none` when the peripheral reports no name). -/
structure Peripheral where
  identifierUUIDString : String
  name : Option String
deriving DecidableEq, Repr

/-- One entry of `central_manager_delegate.advertisement_data_list`:
`manufacturerData = none` models a dictionary without the
`kCBAdvDataManufacturerData` key, `some bs` one mapping it to bytes `bs`. -/
structure AdvertisementData where
  manufacturerData : Option (List Nat)
deriving DecidableEq, Repr

/-- `bleak.backends.device.BLEDevice` as scan_for_devices builds it. -/
structure BLEDevice where
  address : String
  name : String
  details : Peripheral
  manufacturer_data : List (Nat × String)
deriving DecidableEq, Repr

/-- `raise BleakError(msg)`. -/
structure BleakError where
  msg : String
deriving DecidableEq, Repr

/-- Modelled from the spec: `BleakGATTServiceCollection`
(`bleak/backends/service.py`, not under `src/`).  §3: "mapping from UUID to
Service, mapping from UUID to Characteristic (flattened across all
services), mapping from integer handle to Descriptor", append-only
`add_service` / `add_characteristic` / `add_descriptor`; §9: key collisions
are resolved last-write-wins.  The wrapper classes
(`BleakGATTCharacteristicCoreBluetooth` etc., also not under `src/`) are
thin: their key is the native object's `UUID().UUIDString()` (resp. the
descriptor handle), and `obj` is the native object itself, so the maps
store the native objects directly. -/
structure BleakGATTServiceCollection where
  servicesList : List CBService
  characteristicsMap : List (String × CBCharacteristic)
  descriptorsMap : List (Nat × CBDescriptor × String)
deriving DecidableEq, Repr

def BleakGATTServiceCollection.empty : BleakGATTServiceCollection :=
  ⟨[], [], []⟩

def BleakGATTServiceCollection.add_service
    (col : BleakGATTServiceCollection) (s : CBService) :
    BleakGATTServiceCollection :=
  { col with servicesList := col.servicesList ++ [s] }

def BleakGATTServiceCollection.add_characteristic
    (col : BleakGATTServiceCollection) (c : CBCharacteristic) :
    BleakGATTServiceCollection :=
  { col with characteristicsMap := col.characteristicsMap ++ [(c.uuidString, c)] }

/-- `add_descriptor` stores the descriptor tagged with the owning
characteristic's UUID string (client.py lines 129-134). -/
def BleakGATTServiceCollection.add_descriptor
    (col : BleakGATTServiceCollection) (d : CBDescriptor) (ownerUUID : String) :
    BleakGATTServiceCollection :=
  { col with descriptorsMap := col.descriptorsMap ++ [(d.handle, d, ownerUUID)] }

/-- The value a client operation passes to
`services.get_characteristic(...)`.  Every awaited call passes the
normalized UUID string; `stop_notify` (client.py line 245) omits the
`await`, so what reaches the lookup there is the un-awaited coroutine
object of `get_appropriate_uuid`, which is equal to no string key. -/
inductive CharLookupKey
  | str (s : String)
  | coroutineObj (arg : String)
deriving DecidableEq, Repr

/-- Python `str(...)` of a lookup key, as `"...".format(_uuid)` renders it.
For the coroutine object CPython prints
`<coroutine object BleakClientCoreBluetooth.get_appropriate_uuid at 0x...>`;
the memory address, irrelevant to every claim, is elided. -/
def CharLookupKey.formatted : CharLookupKey → String
  | .str s => s
  | .coroutineObj _ =>
      "<coroutine object BleakClientCoreBluetooth.get_appropriate_uuid>"

/-- Modelled from the spec: UUID → Characteristic lookup on the flattened
map, last write wins (§3, §9).  A coroutine object is not a UUID key, so it
matches nothing. -/
def BleakGATTServiceCollection.get_characteristic
    (col : BleakGATTServiceCollection) (k : CharLookupKey) :
    Option CBCharacteristic :=
  match k with
  | .str s => (col.characteristicsMap.reverse.find? (fun p => p.1 == s)).map (·.2)
  | .coroutineObj _ => none

/-- Modelled from the spec: handle → Descriptor lookup, last write wins. -/
def BleakGATTServiceCollection.get_descriptor
    (col : BleakGATTServiceCollection) (h : Nat) :
    Option (CBDescriptor × String) :=
  (col.descriptorsMap.reverse.find? (fun p => p.1 == h)).map (·.2)

/-- Observable steps of the client: calls to the native central-manager /
peripheral delegate, plus the collection mutations performed by
`get_services` (the latter are not adapter calls, see
`Event.isDiscoveryAdapterCall`). -/
inductive Event
  | scanForPeripherals
  | connectPeripheral (p : Peripheral)
  | discoverServices
  | discoverCharacteristics (s : CBService)
  | discoverDescriptors (c : CBCharacteristic)
  | readCharacteristic (c : CBCharacteristic) (use_cached : Bool)
  | readDescriptor (d : CBDescriptor) (use_cached : Bool)
  | writeCharacteristic (c : CBCharacteristic) (value : List Nat)
  | writeDescriptor (d : CBDescriptor) (value : List Nat)
  | startNotify (c : CBCharacteristic)
  | stopNotify (c : CBCharacteristic)
  | addService (s : CBService)
  | addCharacteristic (c : CBCharacteristic)
  | addDescriptor (d : CBDescriptor) (ownerUUID : String)
deriving DecidableEq, Repr

/-- The three discovery calls to the native adapter (claim C2 counts
these). -/
def Event.isDiscoveryAdapterCall : Event → Bool
  | .discoverServices => true
  | .discoverCharacteristics _ => true
  | .discoverDescriptors _ => true
  | _ => false

/-- State of one `BleakClientCoreBluetooth` (plus the delegate's
`isConnected` flag).  `services` is the collection created by
`BaseBleakClient.__init__`; `_services` is set to `None` in `__init__`
(client.py line 40) and — faithfully to the source — never assigned
anywhere else. -/
structure ClientState where
  address : String
  connected : Bool
  _device_info : Option Peripheral
  _services : Option BleakGATTServiceCollection
  services : BleakGATTServiceCollection
  _services_resolved : Bool
deriving DecidableEq, Repr

/-- `BleakClientCoreBluetooth.__init__` (client.py lines 33-40). -/
def initialState (address : String) : ClientState :=
  { address := address
    connected := false
    _device_info := none
    _services := none
    services := BleakGATTServiceCollection.empty
    _services_resolved := false }

/-! ## The native adapter environment and scanning -/

/-- What the native central-manager / peripheral delegate supplies during
one session: the scan result (peripherals with their parallel advertisement
data list), the connected peripheral's GATT tree (`discoverServices` returns
`tree`; `discoverCharacteristics_` / `discoverDescriptors_` return the child
lists of their argument), and the byte values delivered by reads. -/
structure CentralEnv where
  peripherals : List Peripheral
  advertisement_data_list : List AdvertisementData
  tree : List CBService
  charValue : CBCharacteristic → Bool → List Nat
  descValue : CBDescriptor → Bool → List Nat

/-- Lower-case hex digit, as Python `format(x, 'x')` produces. -/
def hexCharLower (n : Nat) : Char :=
  if n < 10 then Char.ofNat (Char.toNat '0' + n)
  else Char.ofNat (Char.toNat 'a' + n - 10)

/-- The two-character rendering of one byte built at client.py line 94:
`format(x, 'x')` left-padded with `"0"` to two characters (bytes are
`< 256`, so the result is exactly the zero-padded pair of hex digits). -/
def byteHex (b : Nat) : String :=
  String.mk [hexCharLower (b / 16 % 16), hexCharLower (b % 16)]

/-- `int.from_bytes(bs, byteorder='little')`. -/
def intFromBytesLE (bs : List Nat) : Nat :=
  bs.foldr (fun b acc => b + 256 * acc) 0

/-- `scan_for_devices` (client.py lines 79-101).  The peripheral list is
walked with its index into `advertisement_data_list` (modelled by `zip`);
`manufacturer_binary_data` is truthy only when the
`kCBAdvDataManufacturerData` key is present with non-empty bytes, and the
`found.append` at line 99 sits inside that truthiness branch, so only such
peripherals are returned.  `peripheral.name() or "Unknown"` treats a missing
or empty name as `"Unknown"`. -/
def scan_for_devices (env : CentralEnv) : List BLEDevice × List Event :=
  let found := (env.peripherals.zip env.advertisement_data_list).filterMap
    (fun pa =>
      let address := pa.1.identifierUUIDString
      let name := match pa.1.name with
        | some n => if n == "" then "Unknown" else n
        | none => "Unknown"
      match pa.2.manufacturerData with
      | some mb =>
          if mb.isEmpty then none
          else
            let manufacturer_id := intFromBytesLE (mb.take 2)
            let manufacturer_value := String.join ((mb.drop 2).map byteHex)
            some { address := address, name := name, details := pa.1,
                   manufacturer_data := [(manufacturer_id, manufacturer_value)] }
      | none => none)
  (found, [Event.scanForPeripherals])

/-! ## Discovery (`get_services`, client.py lines 103-136) -/

/-- Inner loop of `get_services`: `for descriptor in descriptors`
(client.py lines 129-134), adding each descriptor tagged with the owning
characteristic's `UUID().UUIDString()`. -/
def addDescriptorsLoop (c : CBCharacteristic)
    (col : BleakGATTServiceCollection) (ds : List CBDescriptor) :
    BleakGATTServiceCollection × List Event :=
  match ds with
  | [] => (col, [])
  | d :: rest =>
      let col1 := col.add_descriptor d c.uuidString
      let (col2, evs) := addDescriptorsLoop c col1 rest
      (col2, Event.addDescriptor d c.uuidString :: evs)

/-- Middle loop of `get_services`: `for characteristic in characteristics`
(client.py lines 123-134): await `discoverDescriptors_`, add the
characteristic, then add its descriptors, before the next sibling. -/
def characteristicsLoop (col : BleakGATTServiceCollection)
    (cs : List CBCharacteristic) :
    BleakGATTServiceCollection × List Event :=
  match cs with
  | [] => (col, [])
  | c :: rest =>
      let col1 := col.add_characteristic c
      let (col2, devs) := addDescriptorsLoop c col1 c.descriptors
      let (col3, evs) := characteristicsLoop col2 rest
      (col3, Event.discoverDescriptors c :: Event.addCharacteristic c ::
        (devs ++ evs))

/-- Outer loop of `get_services`: `for service in services` (client.py
lines 116-134): await `discoverCharacteristics_`, add the service, then
process its characteristics, before the next sibling. -/
def servicesLoop (col : BleakGATTServiceCollection) (ss : List CBService) :
    BleakGATTServiceCollection × List Event :=
  match ss with
  | [] => (col, [])
  | s :: rest =>
      let col1 := col.add_service s
      let (col2, cevs) := characteristicsLoop col1 s.characteristics
      let (col3, evs) := servicesLoop col2 rest
      (col3, Event.discoverCharacteristics s :: Event.addService s ::
        (cevs ++ evs))

/-- `get_services` (client.py lines 103-136).  Returns the cached
`self._services` when it is not `None`; otherwise runs the discovery
traversal over `self.services`, sets `_services_resolved` and returns
`self.services`.  Faithfully to the source, `_services` itself is NOT
assigned. -/
def get_services (st : ClientState) (tree : List CBService) :
    ClientState × BleakGATTServiceCollection × List Event :=
  match st._services with
  | some col => (st, col, [])
  | none =>
      let (col, evs) := servicesLoop st.services tree
      ({ st with services := col, _services_resolved := true },
       col, Event.discoverServices :: evs)

/-! ## Client operations (client.py lines 48-250) -/

/-- `sought_device` of `connect` (client.py line 54): the scan result
filtered by case-insensitive address equality. -/
def soughtDevices (env : CentralEnv) (st : ClientState) : List BLEDevice :=
  ((scan_for_devices env).1).filter
    (fun x => pyUpper x.address == pyUpper st.address)

/-- `connect` (client.py lines 48-68): scan, filter by address; raise when
no match; otherwise store `_device_info`, connect through the central
manager delegate, run `get_services`, return `True`. -/
def connect (env : CentralEnv) (st : ClientState) :
    Except BleakError Bool × ClientState × List Event :=
  let scanTrace := (scan_for_devices env).2
  match soughtDevices env st with
  | [] =>
      (Except.error
        ⟨"Device with address " ++ st.address ++ " was not found"⟩,
       st, scanTrace)
  | d :: _ =>
      let st1 := { st with _device_info := some d.details, connected := true }
      let (st2, _, devs) := get_services st1 env.tree
      (Except.ok true, st2,
       scanTrace ++ Event.connectPeripheral d.details :: devs)

/-- `read_gatt_char` (client.py lines 138-157). -/
def read_gatt_char (env : CentralEnv) (st : ClientState) (u : String)
    (use_cached : Bool) : Except BleakError (List Nat) × List Event :=
  let nu := get_appropriate_uuid u
  match st.services.get_characteristic (CharLookupKey.str nu) with
  | none =>
      (Except.error ⟨"Characteristic " ++ nu ++ " was not found!"⟩, [])
  | some ch =>
      (Except.ok (env.charValue ch use_cached),
       [Event.readCharacteristic ch use_cached])

/-- `read_gatt_descriptor` (client.py lines 159-176). -/
def read_gatt_descriptor (env : CentralEnv) (st : ClientState)
    (handle : Nat) (use_cached : Bool) :
    Except BleakError (List Nat) × List Event :=
  match st.services.get_descriptor handle with
  | none =>
      (Except.error ⟨"Descriptor " ++ toString handle ++ " was not found!"⟩,
       [])
  | some d =>
      (Except.ok (env.descValue d.1 use_cached),
       [Event.readDescriptor d.1 use_cached])

/-- `write_gatt_char` (client.py lines 178-193).  Faithfully to the source,
the `response` argument is accepted but never used: the delegate call
`writeCharacteristic_value_` receives only the characteristic and the
value. -/
def write_gatt_char (st : ClientState) (u : String) (data : List Nat)
    (response : Bool) : Except BleakError Unit × List Event :=
  let nu := get_appropriate_uuid u
  match st.services.get_characteristic (CharLookupKey.str nu) with
  | none =>
      (Except.error ⟨"Characteristic " ++ nu ++ " was not found!"⟩, [])
  | some ch =>
      (Except.ok (), [Event.writeCharacteristic ch data])

/-- `write_gatt_descriptor` (client.py lines 195-208). -/
def write_gatt_descriptor (st : ClientState) (handle : Nat)
    (data : List Nat) : Except BleakError Unit × List Event :=
  match st.services.get_descriptor handle with
  | none =>
      (Except.error ⟨"Descriptor " ++ toString handle ++ " was not found!"⟩,
       [])
  | some d =>
      (Except.ok (), [Event.writeDescriptor d.1 data])

/-- `start_notify` (client.py lines 210-232); the callback itself lives on
the delegate side and plays no part in the claims. -/
def start_notify (st : ClientState) (u : String) :
    Except BleakError Unit × List Event :=
  let nu := get_appropriate_uuid u
  match st.services.get_characteristic (CharLookupKey.str nu) with
  | none =>
      (Except.error ⟨"Characteristic " ++ nu ++ " not found!"⟩, [])
  | some ch =>
      (Except.ok (), [Event.startNotify ch])

/-- `stop_notify` (client.py lines 234-250).  Line 245 reads
`_uuid = self.get_appropriate_uuid(_uuid)` with no `await`: `_uuid` becomes
the coroutine object, and that object — not a normalized UUID string — is
what reaches `get_characteristic` and the error message. -/
def stop_notify (st : ClientState) (u : String) :
    Except BleakError Unit × List Event :=
  let k := CharLookupKey.coroutineObj u
  match st.services.get_characteristic k with
  | none =>
      (Except.error ⟨"Characteristic " ++ k.formatted ++ " not found!"⟩, [])
  | some ch =>
      (Except.ok (), [Event.stopNotify ch])

/-! ## Server context management (server.py lines 26-31) -/

/-- Observable steps of a `BaseBleakServer` implementation. -/
inductive ServerEvent
  | startServer
  | stopServer
  | bodyStep (n : Nat)
deriving DecidableEq, Repr

/-- `BaseBleakServer.__aenter__` (server.py lines 26-28): awaits
`self.start()` and then yields the server itself. -/
def BaseBleakServer.aenterEvents : List ServerEvent :=
  [ServerEvent.startServer]

/-- `BaseBleakServer.__aexit__` (server.py lines 30-31): awaits
`self.stop()`, whatever exception information it receives. -/
def BaseBleakServer.aexitEvents (excInfo : Option String) : List ServerEvent :=
  [ServerEvent.stopServer]

/-- Semantics of Python's `async with` statement over this embedding: run
`__aenter__`, then the caller's body (its trace of steps and its outcome —
`Except.error` models the body raising), then `__aexit__` on every exit
path, passing the exception information when the body raised. -/
def pythonAsyncWith (enterEvents : List ServerEvent)
    (exitEvents : Option String → List ServerEvent)
    (body : List ServerEvent × Except String Unit) :
    List ServerEvent × Except String Unit :=
  let excInfo := match body.2 with
    | Except.ok _ => none
    | Except.error e => some e
  (enterEvents ++ body.1 ++ exitEvents excInfo, body.2)

/-- `async with BaseBleakServer(...) as server: body`. -/
def serverAsyncWith (body : List ServerEvent × Except String Unit) :
    List ServerEvent × Except String Unit :=
  pythonAsyncWith BaseBleakServer.aenterEvents BaseBleakServer.aexitEvents body

/-! ## Concrete fixtures used by witnesses and counterexamples -/

def desc42 : CBDescriptor := ⟨42⟩

def chr2A37 : CBCharacteristic := ⟨"2A37", [desc42]⟩

def svc180D : CBService := ⟨"180D", [chr2A37]⟩

/-- The §8 scenario peripheral tree: one heart-rate service with one
notify characteristic carrying one descriptor. -/
def treeW : List CBService := [svc180D]

/-- A session state whose collection already holds the §8 scenario tree,
with the delegate reporting no active connection. -/
def stPop : ClientState :=
  { address := "AA-BB"
    connected := false
    _device_info := none
    _services := none
    services :=
      { servicesList := [svc180D]
        characteristicsMap := [("2A37", chr2A37)]
        descriptorsMap := [(42, desc42, "2A37")] }
    _services_resolved := true }

def devPopPeripheral : Peripheral := ⟨"AA-BB", some "Polar"⟩

/-- An adapter environment advertising one peripheral (with manufacturer
data bytes `[1, 0, 171]`) exposing the §8 scenario tree. -/
def envPop : CentralEnv :=
  { peripherals := [devPopPeripheral]
    advertisement_data_list := [⟨some [1, 0, 171]⟩]
    tree := treeW
    charValue := fun _ _ => [6]
    descValue := fun _ _ => [7] }

/-- The `BLEDevice` that `scan_for_devices envPop` yields. -/
def devPop : BLEDevice := ⟨"AA-BB", "Polar", devPopPeripheral, [(1, "ab")]⟩

/-- An adapter environment whose one peripheral (address `CC`) advertises
without any `kCBAdvDataManufacturerData` entry. -/
def envNoMfg : CentralEnv :=
  { peripherals := [⟨"CC", some "NoMfg"⟩]
    advertisement_data_list := [⟨none⟩]
    tree := []
    charValue := fun _ _ => []
    descValue := fun _ _ => [] }

/-! ## C2: the `get_services` cache never fires -/

/-- Two consecutive `get_services` calls on one session, concatenating
their traces. -/
def getServicesTwice (st : ClientState) (tree : List CBService) :
    List Event :=
  let r1 := get_services st tree
  let r2 := get_services r1.1 tree
  r1.2.2 ++ r2.2.2

/-- C2: refuted by the code.  `self._services` is initialized to `None` and
never assigned, so the cache check of `get_services` (client.py line 110)
never fires: after a completed first call `_services` is still `none`, the
second call replays the full discovery trace, and two calls issue six
discovery calls to the adapter (`discoverServices` itself twice) where the
claim allows at most one each. -/
theorem get_services_cache_never_hits :
    ((get_services (initialState "AA-BB") treeW).1)._services = none ∧
    (get_services ((get_services (initialState "AA-BB") treeW).1) treeW).2.2 =
      (get_services (initialState "AA-BB") treeW).2.2 ∧
    (getServicesTwice (initialState "AA-BB") treeW).countP
      (fun e => e.isDiscoveryAdapterCall) = 6 ∧
    (getServicesTwice (initialState "AA-BB") treeW).count
      Event.discoverServices = 2 := by
  refine ⟨rfl, ?_, ?_, ?_⟩ <;> decide

/-! ## C3: no operation checks the connection state -/

/-- C3 counterexample: with the delegate reporting `isConnected = false`,
`read_gatt_char` on a characteristic present in the collection succeeds and
issues a read call to the adapter — it neither fails with a "not connected"
error nor leaves the adapter untouched, contrary to the claim. -/
theorem read_gatt_char_disconnected_counterexample :
    stPop.connected = false ∧
    read_gatt_char envPop stPop "2A37" false =
      (Except.ok [6], [Event.readCharacteristic chr2A37 false]) :=
  ⟨rfl, rfl⟩

def setConnected (st : ClientState) (b : Bool) : ClientState :=
  { st with connected := b }

/-- C3 amended: no client operation other than `connect` consults the
connection state at all — each behaves identically on a disconnected and a
connected session, failing only with a "not found" error when its lookup
misses and otherwise dispatching to the adapter. -/
theorem operations_ignore_connection_state (env : CentralEnv)
    (st : ClientState) (u : String) (uc : Bool) (handle : Nat)
    (data : List Nat) (r : Bool) (tree : List CBService) (b b' : Bool) :
    read_gatt_char env (setConnected st b) u uc =
      read_gatt_char env (setConnected st b') u uc ∧
    write_gatt_char (setConnected st b) u data r =
      write_gatt_char (setConnected st b') u data r ∧
    read_gatt_descriptor env (setConnected st b) handle uc =
      read_gatt_descriptor env (setConnected st b') handle uc ∧
    write_gatt_descriptor (setConnected st b) handle data =
      write_gatt_descriptor (setConnected st b') handle data ∧
    start_notify (setConnected st b) u = start_notify (setConnected st b') u ∧
    stop_notify (setConnected st b) u = stop_notify (setConnected st b') u ∧
    (get_services (setConnected st b) tree).2 =
      (get_services (setConnected st b') tree).2 := by
  refine ⟨rfl, rfl, rfl, rfl, rfl, rfl, ?_⟩
  cases h : st._services <;>
    simp [get_services, setConnected, h]

/-! ## C4: `stop_notify` never normalizes and never resolves -/

/-- C4: refuted by the code.  `stop_notify` (client.py line 245) misses the
`await` on `get_appropriate_uuid`, so the coroutine object — not a
normalized UUID — reaches the lookup: with the characteristic `2A37`
present in the collection, `stop_notify` fails with "not found" for the
short form and for the full form alike and never reaches the adapter,
while the awaited `start_notify` resolves both forms to the same
characteristic. -/
theorem stop_notify_never_resolves :
    stop_notify stPop "2A37" =
      (Except.error
        ⟨"Characteristic <coroutine object BleakClientCoreBluetooth.get_appropriate_uuid> not found!"⟩,
       []) ∧
    stop_notify stPop "00002A37-0000-1000-8000-00805F9B34FB" =
      (Except.error
        ⟨"Characteristic <coroutine object BleakClientCoreBluetooth.get_appropriate_uuid> not found!"⟩,
       []) ∧
    start_notify stPop "2A37" = (Except.ok (), [Event.startNotify chr2A37]) ∧
    start_notify stPop "00002A37-0000-1000-8000-00805F9B34FB" =
      (Except.ok (), [Event.startNotify chr2A37]) :=
  ⟨rfl, rfl, rfl, rfl⟩

/-! ## C5: discovery populates the collection in the §4.2 order -/

/-- The §4.2 traversal order exactly as the spec states it: one service
list request; then per service, in returned order, its characteristic list
request followed by adding the service; then per characteristic, in
returned order, its descriptor list request, adding the characteristic, and
adding each of its descriptors tagged with the owning characteristic's
UUID — each node finished before its next sibling. -/
def specDiscoveryEvents (tree : List CBService) : List Event :=
  Event.discoverServices ::
    (tree.map (fun s =>
      Event.discoverCharacteristics s :: Event.addService s ::
        (s.characteristics.map (fun c =>
          Event.discoverDescriptors c :: Event.addCharacteristic c ::
            c.descriptors.map
              (fun d => Event.addDescriptor d c.uuidString))).flatten)).flatten

theorem addDescriptorsLoop_events (c : CBCharacteristic)
    (col : BleakGATTServiceCollection) (ds : List CBDescriptor) :
    (addDescriptorsLoop c col ds).2 =
      ds.map (fun d => Event.addDescriptor d c.uuidString) := by
  induction ds generalizing col with
  | nil => rfl
  | cons d rest ih => simp [addDescriptorsLoop, ih]

theorem characteristicsLoop_events (col : BleakGATTServiceCollection)
    (cs : List CBCharacteristic) :
    (characteristicsLoop col cs).2 =
      (cs.map (fun c =>
        Event.discoverDescriptors c :: Event.addCharacteristic c ::
          c.descriptors.map
            (fun d => Event.addDescriptor d c.uuidString))).flatten := by
  induction cs generalizing col with
  | nil => rfl
  | cons c rest ih => simp [characteristicsLoop, addDescriptorsLoop_events, ih]

theorem servicesLoop_events (col : BleakGATTServiceCollection)
    (ss : List CBService) :
    (servicesLoop col ss).2 =
      (ss.map (fun s =>
        Event.discoverCharacteristics s :: Event.addService s ::
          (s.characteristics.map (fun c =>
            Event.discoverDescriptors c :: Event.addCharacteristic c ::
              c.descriptors.map
                (fun d => Event.addDescriptor d c.uuidString))).flatten)).flatten := by
  induction ss generalizing col with
  | nil => rfl
  | cons s rest ih => simp [servicesLoop, characteristicsLoop_events, ih]

/-- C5: on a session whose discovery has not run yet, `get_services`
produces exactly the §4.2 event order of `specDiscoveryEvents`: services in
adapter order, each service's characteristic list requested before the
service is added, each characteristic's descriptor list requested before
the characteristic is added, descriptors added after their characteristic
tagged with the owner's UUID string, every node completed before its next
sibling. -/
theorem get_services_discovery_order (st : ClientState)
    (tree : List CBService) (h : st._services = none) :
    (get_services st tree).2.2 = specDiscoveryEvents tree := by
  simp [get_services, h, specDiscoveryEvents, servicesLoop_events]

/-- C5 witness: the theorem applied to a fresh session and the §8 scenario
tree. -/
theorem get_services_discovery_order_witness :
    (initialState "AA-BB")._services = none ∧
    (get_services (initialState "AA-BB") treeW).2.2 =
      specDiscoveryEvents treeW :=
  ⟨rfl, get_services_discovery_order (initialState "AA-BB") treeW rfl⟩

/-! ## C6: absent identifiers fail with "not found" and no adapter call -/

/-- C6: when the normalized UUID is absent from the collection,
`read_gatt_char` returns the `BleakError` whose message carries that
normalized UUID and issues no adapter call; `read_gatt_descriptor` and
`write_gatt_descriptor` do the same for an absent handle, the handle in the
message. -/
theorem absent_lookup_errors (env : CentralEnv) (st : ClientState)
    (u : String) (uc : Bool) (handle : Nat) (data : List Nat)
    (hc : st.services.get_characteristic
      (CharLookupKey.str (get_appropriate_uuid u)) = none)
    (hd : st.services.get_descriptor handle = none) :
    read_gatt_char env st u uc =
      (Except.error
        ⟨"Characteristic " ++ get_appropriate_uuid u ++ " was not found!"⟩,
       []) ∧
    read_gatt_descriptor env st handle uc =
      (Except.error
        ⟨"Descriptor " ++ toString handle ++ " was not found!"⟩, []) ∧
    write_gatt_descriptor st handle data =
      (Except.error
        ⟨"Descriptor " ++ toString handle ++ " was not found!"⟩, []) := by
  refine ⟨?_, ?_, ?_⟩ <;>
    simp [read_gatt_char, read_gatt_descriptor, write_gatt_descriptor, hc, hd]

/-- C6 witness: the theorem applied to a fresh (empty-collection) session,
UUID `ABCD` and handle `7`. -/
theorem absent_lookup_errors_witness :
    read_gatt_char envPop (initialState "AA") "ABCD" false =
      (Except.error ⟨"Characteristic ABCD was not found!"⟩, []) ∧
    read_gatt_descriptor envPop (initialState "AA") 7 false =
      (Except.error ⟨"Descriptor 7 was not found!"⟩, []) ∧
    write_gatt_descriptor (initialState "AA") 7 [1] =
      (Except.error ⟨"Descriptor 7 was not found!"⟩, []) :=
  absent_lookup_errors envPop (initialState "AA") "ABCD" false 7 [1] rfl rfl

/-! ## C7: connect scans, matches case-insensitively, discovers, returns -/

/-- C7: when no scanned device's address matches the target address
case-insensitively, `connect` raises the "was not found" `BleakError`
carrying the address, with only the scan issued; when a device matches,
`connect` stores its details, connects through the central manager, runs
the full `get_services` discovery before returning, and returns `True`. -/
theorem connect_matches_spec (env : CentralEnv) (st : ClientState) :
    (soughtDevices env st = [] →
      connect env st =
        (Except.error
          ⟨"Device with address " ++ st.address ++ " was not found"⟩,
         st, [Event.scanForPeripherals])) ∧
    (∀ d rest, soughtDevices env st = d :: rest →
      connect env st =
        (Except.ok true,
         (get_services
            { st with _device_info := some d.details, connected := true }
            env.tree).1,
         Event.scanForPeripherals :: Event.connectPeripheral d.details ::
           (get_services
              { st with _device_info := some d.details, connected := true }
              env.tree).2.2)) := by
  constructor
  · intro h
    unfold connect
    rw [h]
    rfl
  · intro d rest h
    unfold connect
    rw [h]
    rfl

/-- C7 witness: on `envPop`, the target `aa-bb` matches the advertised
`AA-BB` case-insensitively and connecting succeeds with discovery run
before returning; the target `CC` matches nothing and raises. -/
theorem connect_matches_spec_witness :
    connect envPop (initialState "aa-bb") =
      (Except.ok true,
       (get_services
          { initialState "aa-bb" with
              _device_info := some devPop.details, connected := true }
          envPop.tree).1,
       Event.scanForPeripherals :: Event.connectPeripheral devPop.details ::
         (get_services
            { initialState "aa-bb" with
                _device_info := some devPop.details, connected := true }
            envPop.tree).2.2) ∧
    connect envPop (initialState "CC") =
      (Except.error ⟨"Device with address CC was not found"⟩,
       initialState "CC", [Event.scanForPeripherals]) :=
  ⟨(connect_matches_spec envPop (initialState "aa-bb")).2 devPop [] (by decide),
   (connect_matches_spec envPop (initialState "CC")).1 (by decide)⟩

/-! ## C8: the `response` argument of `write_gatt_char` is ignored -/

/-- C8: refuted by the code.  `write_gatt_char` accepts `response` but
never passes it on: the call with `response = True` is indistinguishable
from the call with `response = False`, and the adapter write carries no ack
mode — contrary to the claim (and to the function's own docstring) that the
`response` argument determines the adapter write mode. -/
theorem write_gatt_char_response_ignored :
    (∀ (st : ClientState) (u : String) (data : List Nat),
      write_gatt_char st u data true = write_gatt_char st u data false) ∧
    write_gatt_char stPop "2A37" [1, 2] true =
      (Except.ok (), [Event.writeCharacteristic chr2A37 [1, 2]]) :=
  ⟨fun _ _ _ => rfl, rfl⟩

/-! ## C9: server enter/exit bracketing -/

/-- C9: around any caller body — whether it completes normally
(`Except.ok`) or raises (`Except.error`) — the `async with` bracketing of
`BaseBleakServer` runs `start()` first, the body second, and `stop()` last
on every exit path, and passes the body's outcome through. -/
theorem server_bracketing (bodyTrace : List ServerEvent)
    (bodyResult : Except String Unit) :
    serverAsyncWith (bodyTrace, bodyResult) =
      (ServerEvent.startServer :: bodyTrace ++ [ServerEvent.stopServer],
       bodyResult) := by
  cases bodyResult <;> rfl

/-! ## C10: scanning drops peripherals without manufacturer data -/

/-- C10: every device returned by `scan_for_devices` stems from a scanned
peripheral whose advertisement data carries a non-empty
`kCBAdvDataManufacturerData` entry; and for a peripheral advertising
without one — here `CC`, reported by the adapter — the scan omits it, so
`connect` to its own address raises "Device with address CC was not
found". -/
theorem scan_requires_manufacturer_data (env : CentralEnv) :
    (∀ d, d ∈ (scan_for_devices env).1 →
      ∃ p ad, (p, ad) ∈ env.peripherals.zip env.advertisement_data_list ∧
        d.details = p ∧
        ∃ mb, ad.manufacturerData = some mb ∧ mb ≠ []) ∧
    (scan_for_devices envNoMfg).1 = [] ∧
    connect envNoMfg (initialState "CC") =
      (Except.error ⟨"Device with address CC was not found"⟩,
       initialState "CC", [Event.scanForPeripherals]) := by
  refine ⟨?_, by decide, rfl⟩
  intro d hd
  simp only [scan_for_devices, List.mem_filterMap] at hd
  obtain ⟨⟨p, ad⟩, hmem, hfa⟩ := hd
  obtain ⟨mdOpt⟩ := ad
  cases mdOpt with
  | none => simp at hfa
  | some mb =>
      dsimp only at hfa
      split at hfa
      next hemp => cases hfa
      next hemp =>
        obtain rfl := Option.some.inj hfa
        exact ⟨p, ⟨some mb⟩, hmem, rfl, mb, rfl,
          fun hnil => hemp (by rw [hnil] ; rfl)⟩

/-- C10 witness: the theorem applied at `envPop`, whose single scanned
device `devPop` indeed stems from a peripheral advertising non-empty
manufacturer data. -/
theorem scan_requires_manufacturer_data_witness :
    (∃ p ad,
      (p, ad) ∈ envPop.peripherals.zip envPop.advertisement_data_list ∧
      devPop.details = p ∧
      ∃ mb, ad.manufacturerData = some mb ∧ mb ≠ []) ∧
    (scan_for_devices envNoMfg).1 = [] :=
  ⟨(scan_requires_manufacturer_data envPop).1 devPop (by decide),
   (scan_requires_manufacturer_data envPop).2.1⟩
